import Mathlib

/-!
The "creating Kubernetes resources" state of the ActiveMQ Artemis operator:
a shallow embedding of
`pkg/controller/activemqartemis/creatingk8sresources_state.go`.

The Go methods mutate the receiver `rs`, the reconciler reached through
`rs.parentFSM.r`, and the cluster behind `rs.parentFSM.r.client`.  Here every
method is a pure function from the state record to a result and a new state
record.  The collaborators of other packages (`ss`, `svc`, `secrets`, `pods`,
`selectors`, the controller-runtime client, the drift reconciler) are the
fields of `Collab`: arbitrary functions over an arbitrary world type `W`.
Logging has no effect on any modelled value and is left out.
-/

namespace ActiveMQArtemis

/-! ## Data model -/

/-- Go `error` values of the Kubernetes API machinery: `notFound` is what
`errors.IsNotFound` reads, `tag` tells two error values apart.  A Go `error`
is `Option Error`, `none` being `nil`. -/
structure Error where
  notFound : Bool
  tag : Nat
deriving DecidableEq, Repr

/-- Go `errors.IsNotFound(err)`, false on `nil`. -/
def IsNotFound : Option Error → Bool
  | none => false
  | some e => e.notFound

/-- The five dependent resources, in the order `enterFromInvalidState` visits them. -/
inductive Kind where
  | statefulSet
  | headlessService
  | pingService
  | userPasswordSecret
  | clusterUserPasswordSecret
deriving DecidableEq, Repr

/-- The part of the custom resource read by this state:
`customResource.Name`, `customResource.Namespace` and
`customResource.Spec.DeploymentPlan.Size` (an `int32`). -/
structure CustomResource where
  Name : String
  Namespace : String
  Size : Int
deriving DecidableEq, Repr

/-- Go `reconcile.Result`; `RequeueAfter` is a `time.Duration`, in nanoseconds. -/
structure Result where
  Requeue : Bool
  RequeueAfter : Int
deriving DecidableEq, Repr

/-- Go `time.Second`, in nanoseconds. -/
def Second : Int := 1000000000

/-- Constants of package `activemqartemis` that this file uses and another file
declares: the state identifiers and the `stepsComplete` bit constants.  They
are parameters of the embedding. -/
structure Consts where
  NotCreatedID : Int
  CreatingK8sResourcesID : Int
  ScalingID : Int
  None : Nat
  CreatedStatefulSet : Nat
  CreatedHeadlessService : Nat
  CreatedPingService : Nat
  CreatedUserPasswordSecret : Nat
  CreatedClusterUserPasswordSecret : Nat
deriving DecidableEq, Repr

/-- The bit constant that records kind `κ`. -/
def Consts.flag (k : Consts) : Kind → Nat
  | .statefulSet => k.CreatedStatefulSet
  | .headlessService => k.CreatedHeadlessService
  | .pingService => k.CreatedPingService
  | .userPasswordSecret => k.CreatedUserPasswordSecret
  | .clusterUserPasswordSecret => k.CreatedClusterUserPasswordSecret

/-- What the code needs of the constants to be "named bit constants" of a
`uint8` and distinct state identifiers: `None` is the empty mask, every flag
is a nonzero `uint8` value, two different flags share no bit, and the three
state identifiers differ. -/
def Consts.WF (k : Consts) : Prop :=
  k.None = 0 ∧
  (∀ κ : Kind, 0 < k.flag κ ∧ k.flag κ < 256) ∧
  (∀ κ κ' : Kind, κ ≠ κ' → k.flag κ &&& k.flag κ' = 0) ∧
  k.ScalingID ≠ k.CreatingK8sResourcesID ∧
  k.NotCreatedID ≠ k.CreatingK8sResourcesID ∧
  k.NotCreatedID ≠ k.ScalingID

/-- The collaborators of `CreatingK8sResourcesState`, as functions over a world
`W` (the cluster behind the client together with the package-level name and
label builders) and a type `SS` of `appsv1.StatefulSet` objects.  A function
returning `Option Error` returns Go's `error`.  The resource definitions the
Go code builds with `NewStatefulSetForCR` and `NewHeadlessServiceForCR` are
functions of the custom resource and of the builders, so the retrieve and
create collaborators take the custom resource and the world. -/
structure Collab (W SS : Type) where
  /-- Go `ss.NameBuilder.Base(name).Suffix("ss").Generate()`. -/
  ssNameGenerate : String → W → W
  /-- Go `svc.HeadlessNameBuilder.Prefix("amq-broker").Base("amq").Suffix("headless").Generate()`. -/
  headlessNameGenerate : W → W
  /-- Go `pods.NameBuilder.Base(name).Suffix("container").Generate()`. -/
  podsNameGenerate : String → W → W
  /-- Go `selectors.LabelBuilder.Base(name).Suffix("app").Generate()`. -/
  labelGenerate : String → W → W
  /-- Go `ss.NameBuilder.Name()`. -/
  ssName : W → String
  ssRetrieve : CustomResource → W → Option Error × W
  ssCreate : CustomResource → W → Option Error × W
  svcRetrieve : CustomResource → W → Option Error × W
  svcCreate : CustomResource → W → Option Error × W
  RetrievePingService : CustomResource → W → Option Error × W
  CreatePingService : CustomResource → W → Option Error × W
  RetrieveUserPasswordSecret : CustomResource → W → Option Error × W
  CreateUserPasswordSecret : CustomResource → W → Option Error × W
  RetrieveClusterUserPasswordSecret : CustomResource → W → Option Error × W
  CreateClusterUserPasswordSecret : CustomResource → W → Option Error × W
  /-- Go `client.Get(ctx, NamespacedName{Name, Namespace}, currentStatefulSet)`:
  the error and the object left in `currentStatefulSet`. -/
  clientGet : String → String → W → (Option Error × SS) × W
  /-- Go `reconciler.Process(customResource, currentStatefulSet)`: the `uint32`
  count of applied corrections and the object as corrected in place. -/
  Process : CustomResource → SS → W → (Nat × SS) × W
  /-- Go `client.Update(ctx, currentStatefulSet)`. -/
  clientUpdate : SS → W → Option Error × W
  /-- Go `pods.UpdatePodStatus(customResource, client, namespacedName)`. -/
  UpdatePodStatus : CustomResource → W → W

/-- Go `CreatingK8sResourcesState` with what its methods reach through
`parentFSM`: `stepsComplete` (a `uint8`), `parentFSM.customResource`,
`parentFSM.r.result`, and the world behind `parentFSM.r.client`. -/
structure CreatingK8sResourcesState (W : Type) where
  stepsComplete : Nat
  customResource : CustomResource
  result : Result
  world : W

variable {W SS : Type}

/-! ## The methods -/

/-- Go `MakeCreatingK8sResourcesState`: `stepsComplete` starts at `None`. -/
def MakeCreatingK8sResourcesState (k : Consts) (cr : CustomResource) (res : Result) (w : W) :
    CreatingK8sResourcesState W :=
  { stepsComplete := k.None, customResource := cr, result := res, world := w }

/-- Go `(rs *CreatingK8sResourcesState) ID()`. -/
def ID (k : Consts) (_rs : CreatingK8sResourcesState W) : Int :=
  k.CreatingK8sResourcesID

/-- Go `generateNames`: the three name builders, in source order. -/
def generateNames (c : Collab W SS) (rs : CreatingK8sResourcesState W) :
    CreatingK8sResourcesState W :=
  let w := c.ssNameGenerate rs.customResource.Name rs.world
  let w := c.headlessNameGenerate w
  let w := c.podsNameGenerate rs.customResource.Name w
  { rs with world := w }

/-- One of the five blocks of `enterFromInvalidState`:
`if err = Retrieve(..); err != nil { if retrieveError = Create(..); retrieveError == nil { rs.stepsComplete |= flag } }`.
Returns the retrieval's error (the value the block leaves in `err`) and the
new state; `|=` on the `uint8` field is taken modulo 256. -/
def retrieveOrCreate (retrieve create : W → Option Error × W) (flag : Nat)
    (rs : CreatingK8sResourcesState W) : Option Error × CreatingK8sResourcesState W :=
  match retrieve rs.world with
  | (none, w) => (none, { rs with world := w })
  | (some e, w) =>
    match create w with
    | (none, w') =>
      (some e, { rs with stepsComplete := (rs.stepsComplete ||| flag) % 256, world := w' })
    | (some _, w') => (some e, { rs with world := w' })

/-- Go `enterFromInvalidState`.  The first block declares its own `err` with
`:=`, so its retrieval outcome never reaches the function's `err`; the four
later blocks assign `err`, each overwriting the previous value. -/
def enterFromInvalidState (k : Consts) (c : Collab W SS) (rs : CreatingK8sResourcesState W) :
    Option Error × CreatingK8sResourcesState W :=
  let rs := generateNames c rs
  let rs := { rs with world := c.labelGenerate rs.customResource.Name rs.world }
  let cr := rs.customResource
  -- statefulset: its `err` is local to the block
  let r := retrieveOrCreate (c.ssRetrieve cr) (c.ssCreate cr) k.CreatedStatefulSet rs
  let rs := r.2
  -- headless service
  let r := retrieveOrCreate (c.svcRetrieve cr) (c.svcCreate cr) k.CreatedHeadlessService rs
  let rs := r.2
  -- ping service
  let r := retrieveOrCreate (c.RetrievePingService cr) (c.CreatePingService cr)
    k.CreatedPingService rs
  let rs := r.2
  -- user password secret
  let r := retrieveOrCreate (c.RetrieveUserPasswordSecret cr) (c.CreateUserPasswordSecret cr)
    k.CreatedUserPasswordSecret rs
  let rs := r.2
  -- cluster user password secret: the last assignment to `err`
  let r := retrieveOrCreate (c.RetrieveClusterUserPasswordSecret cr)
    (c.CreateClusterUserPasswordSecret cr) k.CreatedClusterUserPasswordSecret rs
  let err := r.1
  let rs := r.2
  (err, rs)

/-- Go `Enter`: only `NotCreatedID` does work, and the error of
`enterFromInvalidState` is dropped, the method ends in `return nil`. -/
def Enter (k : Consts) (c : Collab W SS) (previousStateID : Int)
    (rs : CreatingK8sResourcesState W) : Option Error × CreatingK8sResourcesState W :=
  if previousStateID = k.NotCreatedID then
    (none, (enterFromInvalidState k c rs).2)
  else
    (none, rs)

/-- The gating condition of `Update`:
`(rs.stepsComplete&CreatedStatefulSet > 0) && (rs.stepsComplete&CreatedHeadlessService) > 0 && (rs.stepsComplete&CreatedPingService > 0)`. -/
def gating (k : Consts) (stepsComplete : Nat) : Bool :=
  decide (stepsComplete &&& k.CreatedStatefulSet > 0) &&
  decide (stepsComplete &&& k.CreatedHeadlessService > 0) &&
  decide (stepsComplete &&& k.CreatedPingService > 0)

/-- Go `Update`, returning `((err, nextStateID), rs)`.  The `for` loop runs its
body once: every path ends in `break`. -/
def Update (k : Consts) (c : Collab W SS) (rs : CreatingK8sResourcesState W) :
    (Option Error × Int) × CreatingK8sResourcesState W :=
  let nextStateID : Int := k.CreatingK8sResourcesID
  let g := c.clientGet (c.ssName rs.world) rs.customResource.Namespace rs.world
  let err : Option Error := g.1.1
  let currentStatefulSet : SS := g.1.2
  let rs := { rs with world := g.2 }
  let out : (Option Error × Int) × CreatingK8sResourcesState W :=
    if err.isSome && IsNotFound err then
      -- err = nil; break
      ((none, nextStateID), rs)
    else if gating k rs.stepsComplete then
      let p := c.Process rs.customResource currentStatefulSet rs.world
      let statefulSetUpdates : Nat := p.1.1
      let currentStatefulSet : SS := p.1.2
      let rs := { rs with world := p.2 }
      if statefulSetUpdates > 0 then
        let u := c.clientUpdate currentStatefulSet rs.world
        let err : Option Error := u.1
        let rs := { rs with world := u.2 }
        if err.isSome then
          -- break
          ((err, nextStateID), rs)
        else if rs.customResource.Size > 0 then
          ((err, k.ScalingID), rs)
        else
          ((err, nextStateID), rs)
      else if rs.customResource.Size > 0 then
        ((err, k.ScalingID), rs)
      else
        ((err, nextStateID), rs)
    else
      let rs := { rs with result := { Requeue := true, RequeueAfter := Second * 5 } }
      let rs := (enterFromInvalidState k c rs).2
      ((err, nextStateID), rs)
  let rs := out.2
  let rs := { rs with world := c.UpdatePodStatus rs.customResource rs.world }
  (out.1, rs)

/-- Go `Exit`: a no-op returning `nil`. -/
def Exit (rs : CreatingK8sResourcesState W) : Option Error × CreatingK8sResourcesState W :=
  (none, rs)

/-! ## Recording the collaborator calls -/

/-- One collaborator call together with what it returned. -/
inductive Call (SS : Type) where
  | ssNameGenerate
  | headlessNameGenerate
  | podsNameGenerate
  | labelGenerate
  | Retrieve (κ : Kind) (err : Option Error)
  | Create (κ : Kind) (err : Option Error)
  | clientGet (err : Option Error)
  | Process (updates : Nat)
  | clientUpdate (obj : SS) (err : Option Error)
  | UpdatePodStatus
deriving DecidableEq, Repr

/-- Is the call a `client.Update`? -/
def Call.isClientUpdate : Call SS → Bool
  | .clientUpdate _ _ => true
  | _ => false

/-- A call log, newest call first. -/
abbrev Log (SS : Type) := List (Call SS)

/-- Wrap an error-returning collaborator so that it records its call. -/
def logged (call : Option Error → Call SS) (f : W → Option Error × W) :
    W × Log SS → Option Error × (W × Log SS) :=
  fun s => ((f s.1).1, ((f s.1).2, call (f s.1).1 :: s.2))

/-- The collaborators `c`, each recording its call in a log carried next to
the world.  The wrapped collaborators return what `c` returns. -/
def Collab.traced (c : Collab W SS) : Collab (W × Log SS) SS where
  ssNameGenerate n s := (c.ssNameGenerate n s.1, Call.ssNameGenerate :: s.2)
  headlessNameGenerate s := (c.headlessNameGenerate s.1, Call.headlessNameGenerate :: s.2)
  podsNameGenerate n s := (c.podsNameGenerate n s.1, Call.podsNameGenerate :: s.2)
  labelGenerate n s := (c.labelGenerate n s.1, Call.labelGenerate :: s.2)
  ssName s := c.ssName s.1
  ssRetrieve cr := logged (Call.Retrieve .statefulSet) (c.ssRetrieve cr)
  ssCreate cr := logged (Call.Create .statefulSet) (c.ssCreate cr)
  svcRetrieve cr := logged (Call.Retrieve .headlessService) (c.svcRetrieve cr)
  svcCreate cr := logged (Call.Create .headlessService) (c.svcCreate cr)
  RetrievePingService cr := logged (Call.Retrieve .pingService) (c.RetrievePingService cr)
  CreatePingService cr := logged (Call.Create .pingService) (c.CreatePingService cr)
  RetrieveUserPasswordSecret cr :=
    logged (Call.Retrieve .userPasswordSecret) (c.RetrieveUserPasswordSecret cr)
  CreateUserPasswordSecret cr :=
    logged (Call.Create .userPasswordSecret) (c.CreateUserPasswordSecret cr)
  RetrieveClusterUserPasswordSecret cr :=
    logged (Call.Retrieve .clusterUserPasswordSecret) (c.RetrieveClusterUserPasswordSecret cr)
  CreateClusterUserPasswordSecret cr :=
    logged (Call.Create .clusterUserPasswordSecret) (c.CreateClusterUserPasswordSecret cr)
  clientGet n ns s :=
    ((c.clientGet n ns s.1).1, ((c.clientGet n ns s.1).2, Call.clientGet (c.clientGet n ns s.1).1.1 :: s.2))
  Process cr obj s :=
    ((c.Process cr obj s.1).1, ((c.Process cr obj s.1).2, Call.Process (c.Process cr obj s.1).1.1 :: s.2))
  clientUpdate obj s :=
    ((c.clientUpdate obj s.1).1, ((c.clientUpdate obj s.1).2, Call.clientUpdate obj (c.clientUpdate obj s.1).1 :: s.2))
  UpdatePodStatus cr s := (c.UpdatePodStatus cr s.1, Call.UpdatePodStatus :: s.2)

/-- In a log (newest first), every `Create` comes right after a failed
`Retrieve` of the same kind. -/
def createsGuarded : Log SS → Bool
  | [] => true
  | Call.Create κ _ :: rest =>
    (match rest with
      | Call.Retrieve κ' (some _) :: _ => decide (κ' = κ)
      | _ => false) && createsGuarded rest
  | _ :: rest => createsGuarded rest

/-! ## A cluster in which created resources stay retrievable -/

/-- A cluster: which of the five dependent resources exist, the outcomes the
API server will give to the coming `Create` calls (an exhausted script means
success), a fault injected into the workload `Get`, the field-level drift of
the workload, and the outcome of `client.Update`. -/
structure Cluster where
  statefulSet : Bool
  headlessService : Bool
  pingService : Bool
  userPasswordSecret : Bool
  clusterUserPasswordSecret : Bool
  createScript : List (Option Error)
  getFault : Option Error
  drift : Nat
  updateFault : Option Error
deriving DecidableEq, Repr

/-- Does the resource of kind `κ` exist? -/
def Cluster.present (cl : Cluster) : Kind → Bool
  | .statefulSet => cl.statefulSet
  | .headlessService => cl.headlessService
  | .pingService => cl.pingService
  | .userPasswordSecret => cl.userPasswordSecret
  | .clusterUserPasswordSecret => cl.clusterUserPasswordSecret

/-- The cluster with the resource of kind `κ` added. -/
def Cluster.add (cl : Cluster) : Kind → Cluster
  | .statefulSet => { cl with statefulSet := true }
  | .headlessService => { cl with headlessService := true }
  | .pingService => { cl with pingService := true }
  | .userPasswordSecret => { cl with userPasswordSecret := true }
  | .clusterUserPasswordSecret => { cl with clusterUserPasswordSecret := true }

/-- The API server's NotFound error. -/
def errNotFound : Error := { notFound := true, tag := 404 }

/-- The API server's AlreadyExists error. -/
def errAlreadyExists : Error := { notFound := false, tag := 409 }

/-- Retrieval succeeds exactly for a resource that exists. -/
def Cluster.retrieve (κ : Kind) (cl : Cluster) : Option Error × Cluster :=
  if cl.present κ then (none, cl) else (some errNotFound, cl)

/-- Creation of an existing resource is refused; otherwise the next scripted
outcome decides, and a successful creation makes the resource exist. -/
def Cluster.create (κ : Kind) (cl : Cluster) : Option Error × Cluster :=
  if cl.present κ then (some errAlreadyExists, cl)
  else
    match cl.createScript with
    | [] => (none, cl.add κ)
    | none :: rest => (none, { cl.add κ with createScript := rest })
    | some e :: rest => (some e, { cl with createScript := rest })

/-- The collaborators over `Cluster`; a workload object is the number of
corrections applied to the fetched copy. -/
def clusterCollab : Collab Cluster Nat where
  ssNameGenerate _ cl := cl
  headlessNameGenerate cl := cl
  podsNameGenerate _ cl := cl
  labelGenerate _ cl := cl
  ssName _ := "ss"
  ssRetrieve _ := Cluster.retrieve .statefulSet
  ssCreate _ := Cluster.create .statefulSet
  svcRetrieve _ := Cluster.retrieve .headlessService
  svcCreate _ := Cluster.create .headlessService
  RetrievePingService _ := Cluster.retrieve .pingService
  CreatePingService _ := Cluster.create .pingService
  RetrieveUserPasswordSecret _ := Cluster.retrieve .userPasswordSecret
  CreateUserPasswordSecret _ := Cluster.create .userPasswordSecret
  RetrieveClusterUserPasswordSecret _ := Cluster.retrieve .clusterUserPasswordSecret
  CreateClusterUserPasswordSecret _ := Cluster.create .clusterUserPasswordSecret
  clientGet _ _ cl :=
    match cl.getFault with
    | some e => ((some e, 0), cl)
    | none => if cl.statefulSet then ((none, 0), cl) else ((some errNotFound, 0), cl)
  Process _ obj cl := ((cl.drift, obj + cl.drift), cl)
  clientUpdate _ cl :=
    match cl.updateFault with
    | some e => (some e, cl)
    | none => (none, { cl with drift := 0 })
  UpdatePodStatus _ cl := cl

/-- The cluster with none of the five resources, in which every call succeeds. -/
def emptyCluster (drift : Nat) : Cluster :=
  { statefulSet := false, headlessService := false, pingService := false,
    userPasswordSecret := false, clusterUserPasswordSecret := false,
    createScript := [], getFault := none, drift := drift, updateFault := none }

/-- The cluster with all five resources, in which every call succeeds. -/
def fullCluster (drift : Nat) : Cluster :=
  { statefulSet := true, headlessService := true, pingService := true,
    userPasswordSecret := true, clusterUserPasswordSecret := true,
    createScript := [], getFault := none, drift := drift, updateFault := none }

/-- One admissible choice of the constants, used for concrete runs. -/
def sampleConsts : Consts :=
  { NotCreatedID := -1, CreatingK8sResourcesID := 0, ScalingID := 2, None := 0,
    CreatedStatefulSet := 1, CreatedHeadlessService := 2, CreatedPingService := 4,
    CreatedUserPasswordSecret := 8, CreatedClusterUserPasswordSecret := 16 }

/-- A custom resource named `broker1` asking for `size` replicas. -/
def broker1 (size : Int) : CustomResource :=
  { Name := "broker1", Namespace := "default", Size := size }

/-- The reconcile result before a tick: no requeue requested. -/
def noRequeue : Result := { Requeue := false, RequeueAfter := 0 }

/-- The state over cluster `cl` with the given `stepsComplete`. -/
def stateOver (steps : Nat) (size : Int) (cl : Cluster) : CreatingK8sResourcesState Cluster :=
  { stepsComplete := steps, customResource := broker1 size, result := noRequeue, world := cl }

/-! ## Names for intermediate results and sample inputs -/

/-- The outcome of the workload `Get` that opens `Update` in state `rs`. -/
def getOf (c : Collab W SS) (rs : CreatingK8sResourcesState W) : (Option Error × SS) × W :=
  c.clientGet (c.ssName rs.world) rs.customResource.Namespace rs.world

/-- The outcome of the drift reconciler on what that `Get` fetched. -/
def processOf (c : Collab W SS) (rs : CreatingK8sResourcesState W) : (Nat × SS) × W :=
  c.Process rs.customResource (getOf c rs).1.2 (getOf c rs).2

/-- The outcome of `client.Update` on the object the drift reconciler corrected. -/
def updateOf (c : Collab W SS) (rs : CreatingK8sResourcesState W) : Option Error × W :=
  c.clientUpdate (processOf c rs).1.2 (processOf c rs).2

/-- The requeue directive of the not-ready path. -/
def requeue5 : Result := { Requeue := true, RequeueAfter := Second * 5 }

/-- The state in which the not-ready path calls `enterFromInvalidState`. -/
def notReadyState (c : Collab W SS) (rs : CreatingK8sResourcesState W) :
    CreatingK8sResourcesState W :=
  { rs with result := requeue5, world := (getOf c rs).2 }

/-- The state in which `enterFromInvalidState` reaches its first block. -/
def namedState (c : Collab W SS) (rs : CreatingK8sResourcesState W) :
    CreatingK8sResourcesState W :=
  { generateNames c rs with
    world := c.labelGenerate rs.customResource.Name (generateNames c rs).world }

/-- The state `rs` with an empty call log next to its world. -/
def withLog (rs : CreatingK8sResourcesState W) : CreatingK8sResourcesState (W × Log SS) :=
  { stepsComplete := rs.stepsComplete, customResource := rs.customResource,
    result := rs.result, world := (rs.world, []) }

/-- Forget the call log. -/
def unlog (rs : CreatingK8sResourcesState (W × Log SS)) : CreatingK8sResourcesState W :=
  { stepsComplete := rs.stepsComplete, customResource := rs.customResource,
    result := rs.result, world := rs.world.1 }

/-- The state over cluster `cl` whose world also carries an empty call log. -/
def tracedOver (steps : Nat) (size : Int) (cl : Cluster) :
    CreatingK8sResourcesState (Cluster × Log Nat) :=
  { stepsComplete := steps, customResource := broker1 size, result := noRequeue,
    world := (cl, []) }

/-- A cluster with none of the five resources whose API server answers the
workload `Get` with an internal error. -/
def faultyCluster : Cluster :=
  { emptyCluster 0 with getFault := some { notFound := false, tag := 500 } }

/-- A cluster with all five resources, two fields of drift, and an API server
that refuses `client.Update`. -/
def refusingCluster : Cluster :=
  { fullCluster 2 with updateFault := some { notFound := false, tag := 409 } }

/-- An empty cluster whose API server refuses the first `Create` it receives. -/
def flakyCluster : Cluster :=
  { emptyCluster 0 with createScript := [some { notFound := false, tag := 500 }] }

/-- The state after tick 1: `Enter(NotCreatedID)` on a freshly made state over
the empty cluster. -/
def afterFirstTick (k : Consts) (cr : CustomResource) (res : Result) (drift : Nat) :
    CreatingK8sResourcesState Cluster :=
  (Enter k clusterCollab k.NotCreatedID
    (MakeCreatingK8sResourcesState k cr res (emptyCluster drift))).2

/-- Invariant of the creation blocks over a call log: a flag is set exactly
when a successful `Create` of its kind is in the log, a kind retrieved with
success has its flag unset, and a kind still pending has no call in the log. -/
def Recorded (k : Consts) (pending : Kind → Prop)
    (rs : CreatingK8sResourcesState (W × Log SS)) : Prop :=
  (∀ κ, 0 < rs.stepsComplete &&& k.flag κ ↔ Call.Create κ none ∈ rs.world.2) ∧
  (∀ κ, Call.Retrieve κ none ∈ rs.world.2 → rs.stepsComplete &&& k.flag κ = 0) ∧
  (∀ κ, pending κ → ∀ e, Call.Retrieve κ e ∉ rs.world.2 ∧ Call.Create κ e ∉ rs.world.2)

/-- A resource that exists stays in existence and is not created again. -/
def Kept (κ : Kind) (rs : CreatingK8sResourcesState (Cluster × Log Nat)) : Prop :=
  rs.world.1.present κ = true ∧ ∀ e, Call.Create κ e ∉ rs.world.2

/-! ## Bit facts -/

theorem and_mod_256 (x g : Nat) (hg : g < 256) : (x % 256) &&& g = x &&& g := by
  apply Nat.eq_of_testBit_eq
  intro i
  have h256 : (256 : Nat) = 2 ^ 8 := by norm_num
  rw [h256] at hg ⊢
  simp only [Nat.testBit_and, Nat.testBit_mod_two_pow]
  by_cases hi : i < 8
  · simp [hi]
  · have : g.testBit i = false := by
      apply Nat.testBit_lt_two_pow
      exact lt_of_lt_of_le hg (Nat.pow_le_pow_right (by norm_num) (by omega))
    simp [this]

theorem or_pos_right (a f : Nat) (hf0 : 0 < f) : 0 < a ||| f := by
  rcases Nat.eq_zero_or_pos (a ||| f) with h | h
  · exfalso
    have hz : f = 0 := by
      apply Nat.eq_of_testBit_eq
      intro i
      have := congrArg (fun x => x.testBit i) h
      simp [Nat.testBit_or] at this
      simp [this.2]
    omega
  · exact h

theorem or_pos_left (a f : Nat) (ha : 0 < a) : 0 < a ||| f := by
  rw [Nat.lor_comm]
  exact or_pos_right f a ha

theorem setFlag_and_self (s f : Nat) (hf0 : 0 < f) (hf : f < 256) :
    0 < ((s ||| f) % 256) &&& f := by
  rw [and_mod_256 _ f hf, Nat.and_distrib_right, Nat.and_self]
  exact or_pos_right _ f hf0

theorem setFlag_and_other (s f g : Nat) (hd : f &&& g = 0) (hg : g < 256) :
    ((s ||| f) % 256) &&& g = s &&& g := by
  rw [and_mod_256 _ g hg, Nat.and_distrib_right, hd, Nat.or_zero]

theorem setFlag_keeps (s f g : Nat) (hf : f < 256) (h : 0 < s &&& f) :
    0 < ((s ||| g) % 256) &&& f := by
  rw [and_mod_256 _ f hf, Nat.and_distrib_right]
  exact or_pos_left _ _ h

theorem testBit_or_mod_256 (s f i : Nat) (hi : i < 8) (hb : s.testBit i = true) :
    ((s ||| f) % 256).testBit i = true := by
  have h256 : (256 : Nat) = 2 ^ 8 := by norm_num
  rw [h256, Nat.testBit_mod_two_pow, Nat.testBit_or]
  simp [hi, hb]

theorem sampleConsts_WF : sampleConsts.WF := by
  refine ⟨rfl, ?_, ?_, by decide, by decide, by decide⟩
  · intro κ; cases κ <;> decide
  · intro κ κ' h; cases κ <;> cases κ' <;> first | exact absurd rfl h | decide


/-! ## What a tick leaves untouched -/

theorem retrieveOrCreate_customResource (retrieve create : W → Option Error × W) (flag : Nat)
    (rs : CreatingK8sResourcesState W) :
    (retrieveOrCreate retrieve create flag rs).2.customResource = rs.customResource := by
  unfold retrieveOrCreate
  split
  · rfl
  · split <;> rfl

theorem retrieveOrCreate_result (retrieve create : W → Option Error × W) (flag : Nat)
    (rs : CreatingK8sResourcesState W) :
    (retrieveOrCreate retrieve create flag rs).2.result = rs.result := by
  unfold retrieveOrCreate
  split
  · rfl
  · split <;> rfl

theorem enterFromInvalidState_customResource (k : Consts) (c : Collab W SS)
    (rs : CreatingK8sResourcesState W) :
    (enterFromInvalidState k c rs).2.customResource = rs.customResource := by
  simp [enterFromInvalidState, retrieveOrCreate_customResource, generateNames]

theorem enterFromInvalidState_result (k : Consts) (c : Collab W SS)
    (rs : CreatingK8sResourcesState W) :
    (enterFromInvalidState k c rs).2.result = rs.result := by
  simp [enterFromInvalidState, retrieveOrCreate_result, generateNames]

/-- The next state `Update` returns, in closed form. -/
theorem Update_next (k : Consts) (c : Collab W SS) (rs : CreatingK8sResourcesState W) :
    (Update k c rs).1.2 =
      if IsNotFound (getOf c rs).1.1 = false ∧ gating k rs.stepsComplete = true
          ∧ ((processOf c rs).1.1 = 0 ∨ (updateOf c rs).1 = none) ∧ 0 < rs.customResource.Size
      then k.ScalingID else k.CreatingK8sResourcesID := by
  unfold updateOf processOf getOf Update
  generalize c.clientGet (c.ssName rs.world) rs.customResource.Namespace rs.world = g
  obtain ⟨⟨gerr, gobj⟩, gw⟩ := g
  simp only []
  generalize c.Process rs.customResource gobj gw = p
  obtain ⟨⟨n, pobj⟩, pw⟩ := p
  simp only []
  generalize c.clientUpdate pobj pw = u
  obtain ⟨uerr, uw⟩ := u
  cases gerr with
  | none =>
    cases uerr <;> by_cases hg : gating k rs.stepsComplete = true <;>
      cases n <;> by_cases hs : 0 < rs.customResource.Size <;>
      simp [IsNotFound, hg, hs]
  | some e =>
    cases hnf : e.notFound <;> cases uerr <;> by_cases hg : gating k rs.stepsComplete = true <;>
      cases n <;> by_cases hs : 0 < rs.customResource.Size <;>
      simp [IsNotFound, hnf, hg, hs]

/-! ## The four paths of `Update` -/

/-- Path 1: the workload `Get` fails with NotFound. -/
theorem Update_notFound (k : Consts) (c : Collab W SS) (rs : CreatingK8sResourcesState W)
    (h : IsNotFound (getOf c rs).1.1 = true) :
    Update k c rs =
      ((none, k.CreatingK8sResourcesID),
        { rs with world := c.UpdatePodStatus rs.customResource (getOf c rs).2 }) := by
  unfold getOf at h ⊢
  unfold Update
  generalize c.clientGet (c.ssName rs.world) rs.customResource.Namespace rs.world = g at h ⊢
  obtain ⟨⟨gerr, gobj⟩, gw⟩ := g
  cases gerr with
  | none => simp [IsNotFound] at h
  | some e =>
    simp only [IsNotFound] at h
    simp [IsNotFound, h]

/-- Path 2: the `Get` did not fail with NotFound and a gating bit is unset. -/
theorem Update_notReady (k : Consts) (c : Collab W SS) (rs : CreatingK8sResourcesState W)
    (h : IsNotFound (getOf c rs).1.1 = false) (hg : gating k rs.stepsComplete = false) :
    Update k c rs =
      (((getOf c rs).1.1, k.CreatingK8sResourcesID),
        { (enterFromInvalidState k c (notReadyState c rs)).2 with
          world := c.UpdatePodStatus rs.customResource
                    (enterFromInvalidState k c (notReadyState c rs)).2.world }) := by
  unfold notReadyState getOf at *
  unfold Update
  generalize c.clientGet (c.ssName rs.world) rs.customResource.Namespace rs.world = g at h ⊢
  obtain ⟨⟨gerr, gobj⟩, gw⟩ := g
  cases gerr with
  | none => simp [IsNotFound, hg, requeue5, enterFromInvalidState_customResource]
  | some e =>
    simp only [IsNotFound] at h
    simp [IsNotFound, h, hg, requeue5, enterFromInvalidState_customResource]

/-- Path 3: gating bits set, no drift. -/
theorem Update_ready_noDrift (k : Consts) (c : Collab W SS) (rs : CreatingK8sResourcesState W)
    (h : IsNotFound (getOf c rs).1.1 = false) (hg : gating k rs.stepsComplete = true)
    (hn : (processOf c rs).1.1 = 0) :
    Update k c rs =
      (((getOf c rs).1.1,
          if 0 < rs.customResource.Size then k.ScalingID else k.CreatingK8sResourcesID),
        { rs with world := c.UpdatePodStatus rs.customResource (processOf c rs).2 }) := by
  unfold processOf getOf at *
  unfold Update
  generalize c.clientGet (c.ssName rs.world) rs.customResource.Namespace rs.world = g at h hn ⊢
  obtain ⟨⟨gerr, gobj⟩, gw⟩ := g
  simp only [] at hn
  cases gerr with
  | none => by_cases hs : 0 < rs.customResource.Size <;> simp [IsNotFound, hg, hn, hs]
  | some e =>
    simp only [IsNotFound] at h
    by_cases hs : 0 < rs.customResource.Size <;> simp [IsNotFound, h, hg, hn, hs]

/-- Path 4: gating bits set, drift corrected: one `client.Update`, whose error,
if any, is returned with the next state unchanged. -/
theorem Update_ready_drift (k : Consts) (c : Collab W SS) (rs : CreatingK8sResourcesState W)
    (h : IsNotFound (getOf c rs).1.1 = false) (hg : gating k rs.stepsComplete = true)
    (hn : 0 < (processOf c rs).1.1) :
    Update k c rs =
      (((updateOf c rs).1,
          if (updateOf c rs).1 = none ∧ 0 < rs.customResource.Size
          then k.ScalingID else k.CreatingK8sResourcesID),
        { rs with world := c.UpdatePodStatus rs.customResource (updateOf c rs).2 }) := by
  unfold updateOf processOf getOf at *
  unfold Update
  generalize c.clientGet (c.ssName rs.world) rs.customResource.Namespace rs.world = g at h hn ⊢
  obtain ⟨⟨gerr, gobj⟩, gw⟩ := g
  simp only [] at hn ⊢
  generalize c.Process rs.customResource gobj gw = p at hn ⊢
  obtain ⟨⟨n, pobj⟩, pw⟩ := p
  simp only [] at hn ⊢
  generalize c.clientUpdate pobj pw = u
  obtain ⟨uerr, uw⟩ := u
  have hn' : n ≠ 0 := Nat.ne_of_gt hn
  cases gerr with
  | none =>
    cases uerr <;> by_cases hs : 0 < rs.customResource.Size <;> simp [IsNotFound, hg, hn, hs]
  | some e =>
    simp only [IsNotFound] at h
    cases uerr <;> by_cases hs : 0 < rs.customResource.Size <;> simp [IsNotFound, h, hg, hn, hs]

/-- `stepsComplete` after `Update`: changed on the not-ready path only. -/
theorem Update_stepsComplete (k : Consts) (c : Collab W SS) (rs : CreatingK8sResourcesState W) :
    (Update k c rs).2.stepsComplete =
      if IsNotFound (getOf c rs).1.1 = false ∧ gating k rs.stepsComplete = false
      then (enterFromInvalidState k c (notReadyState c rs)).2.stepsComplete
      else rs.stepsComplete := by
  by_cases h : IsNotFound (getOf c rs).1.1 = false
  · by_cases hg : gating k rs.stepsComplete = false
    · rw [Update_notReady k c rs h hg, if_pos ⟨h, hg⟩]
    · have hg' : gating k rs.stepsComplete = true := by simpa using hg
      rw [if_neg (fun hc => hg hc.2)]
      rcases Nat.eq_zero_or_pos (processOf c rs).1.1 with hn | hn
      · rw [Update_ready_noDrift k c rs h hg' hn]
      · rw [Update_ready_drift k c rs h hg' hn]
  · have h' : IsNotFound (getOf c rs).1.1 = true := by simpa using h
    rw [Update_notFound k c rs h', if_neg (fun hc => h hc.1)]

/-! ## Gating and the secret bits -/

theorem gating_xor (k : Consts) (s u : Nat)
    (h1 : u &&& k.CreatedStatefulSet = 0) (h2 : u &&& k.CreatedHeadlessService = 0)
    (h3 : u &&& k.CreatedPingService = 0) :
    gating k (s ^^^ u) = gating k s := by
  simp [gating, Nat.and_xor_distrib_right, h1, h2, h3]

theorem gating_xor_userSecret (k : Consts) (hk : k.WF) (s : Nat) :
    gating k (s ^^^ k.CreatedUserPasswordSecret) = gating k s :=
  gating_xor k s _ (hk.2.2.1 .userPasswordSecret .statefulSet (by decide))
    (hk.2.2.1 .userPasswordSecret .headlessService (by decide))
    (hk.2.2.1 .userPasswordSecret .pingService (by decide))

theorem gating_xor_clusterSecret (k : Consts) (hk : k.WF) (s : Nat) :
    gating k (s ^^^ k.CreatedClusterUserPasswordSecret) = gating k s :=
  gating_xor k s _ (hk.2.2.1 .clusterUserPasswordSecret .statefulSet (by decide))
    (hk.2.2.1 .clusterUserPasswordSecret .headlessService (by decide))
    (hk.2.2.1 .clusterUserPasswordSecret .pingService (by decide))

theorem Enter_notCreated (k : Consts) (c : Collab W SS)
    (rs : CreatingK8sResourcesState W) :
    Enter k c k.NotCreatedID rs = (none, (enterFromInvalidState k c rs).2) := by
  simp [Enter]

/-! ## Monotonicity of `stepsComplete` -/

theorem retrieveOrCreate_testBit (retrieve create : W → Option Error × W) (flag : Nat)
    (rs : CreatingK8sResourcesState W) (i : Nat) (hi : i < 8)
    (hb : rs.stepsComplete.testBit i = true) :
    (retrieveOrCreate retrieve create flag rs).2.stepsComplete.testBit i = true := by
  unfold retrieveOrCreate
  split
  · exact hb
  · split
    · exact testBit_or_mod_256 _ _ _ hi hb
    · exact hb

theorem enterFromInvalidState_testBit (k : Consts) (c : Collab W SS)
    (rs : CreatingK8sResourcesState W) (i : Nat) (hi : i < 8)
    (hb : rs.stepsComplete.testBit i = true) :
    (enterFromInvalidState k c rs).2.stepsComplete.testBit i = true := by
  unfold enterFromInvalidState
  simp only []
  apply retrieveOrCreate_testBit _ _ _ _ i hi
  apply retrieveOrCreate_testBit _ _ _ _ i hi
  apply retrieveOrCreate_testBit _ _ _ _ i hi
  apply retrieveOrCreate_testBit _ _ _ _ i hi
  apply retrieveOrCreate_testBit _ _ _ _ i hi
  exact hb

/-! ## The log is only an observer -/

theorem getOf_traced (c : Collab W SS) (rs : CreatingK8sResourcesState W) :
    getOf c.traced (withLog rs)
      = ((getOf c rs).1, ((getOf c rs).2, [Call.clientGet (getOf c rs).1.1])) := rfl

theorem processOf_traced (c : Collab W SS) (rs : CreatingK8sResourcesState W) :
    processOf c.traced (withLog rs)
      = ((processOf c rs).1,
          ((processOf c rs).2,
            [Call.Process (processOf c rs).1.1, Call.clientGet (getOf c rs).1.1])) := rfl

theorem updateOf_traced (c : Collab W SS) (rs : CreatingK8sResourcesState W) :
    updateOf c.traced (withLog rs)
      = ((updateOf c rs).1,
          ((updateOf c rs).2,
            [Call.clientUpdate (processOf c rs).1.2 (updateOf c rs).1,
              Call.Process (processOf c rs).1.1, Call.clientGet (getOf c rs).1.1])) := rfl

theorem retrieveOrCreate_unlog (a b : Option Error → Call SS)
    (retrieve create : W → Option Error × W) (flag : Nat)
    (rs : CreatingK8sResourcesState (W × Log SS)) :
    (retrieveOrCreate (logged a retrieve) (logged b create) flag rs).1
        = (retrieveOrCreate retrieve create flag (unlog rs)).1 ∧
    unlog (retrieveOrCreate (logged a retrieve) (logged b create) flag rs).2
        = (retrieveOrCreate retrieve create flag (unlog rs)).2 := by
  rcases hr : retrieve rs.world.1 with ⟨re, rw⟩
  cases re with
  | none => simp [retrieveOrCreate, logged, hr, unlog]
  | some e0 =>
    rcases hc : create rw with ⟨ce, cw⟩
    cases ce <;> simp [retrieveOrCreate, logged, hr, hc, unlog]

theorem retrieveOrCreate_unlog_snd (a b : Option Error → Call SS)
    (retrieve create : W → Option Error × W) (flag : Nat)
    (rsT : CreatingK8sResourcesState (W × Log SS)) (rs : CreatingK8sResourcesState W)
    (h : unlog rsT = rs) :
    unlog (retrieveOrCreate (logged a retrieve) (logged b create) flag rsT).2
        = (retrieveOrCreate retrieve create flag rs).2 := by
  subst h
  exact (retrieveOrCreate_unlog a b retrieve create flag rsT).2

theorem retrieveOrCreate_unlog_fst (a b : Option Error → Call SS)
    (retrieve create : W → Option Error × W) (flag : Nat)
    (rsT : CreatingK8sResourcesState (W × Log SS)) (rs : CreatingK8sResourcesState W)
    (h : unlog rsT = rs) :
    (retrieveOrCreate (logged a retrieve) (logged b create) flag rsT).1
        = (retrieveOrCreate retrieve create flag rs).1 := by
  subst h
  exact (retrieveOrCreate_unlog a b retrieve create flag rsT).1

theorem enterFromInvalidState_unlog (k : Consts) (c : Collab W SS)
    (rs : CreatingK8sResourcesState (W × Log SS)) :
    (enterFromInvalidState k c.traced rs).1 = (enterFromInvalidState k c (unlog rs)).1 ∧
    unlog (enterFromInvalidState k c.traced rs).2 = (enterFromInvalidState k c (unlog rs)).2 := by
  have h0 : unlog (namedState c.traced rs) = namedState c (unlog rs) := rfl
  have h1 := retrieveOrCreate_unlog_snd (Call.Retrieve .statefulSet) (Call.Create .statefulSet)
    (c.ssRetrieve rs.customResource) (c.ssCreate rs.customResource) k.CreatedStatefulSet _ _ h0
  have h2 := retrieveOrCreate_unlog_snd (Call.Retrieve .headlessService)
    (Call.Create .headlessService) (c.svcRetrieve rs.customResource)
    (c.svcCreate rs.customResource) k.CreatedHeadlessService _ _ h1
  have h3 := retrieveOrCreate_unlog_snd (Call.Retrieve .pingService)
    (Call.Create .pingService) (c.RetrievePingService rs.customResource)
    (c.CreatePingService rs.customResource) k.CreatedPingService _ _ h2
  have h4 := retrieveOrCreate_unlog_snd (Call.Retrieve .userPasswordSecret)
    (Call.Create .userPasswordSecret) (c.RetrieveUserPasswordSecret rs.customResource)
    (c.CreateUserPasswordSecret rs.customResource) k.CreatedUserPasswordSecret _ _ h3
  exact ⟨retrieveOrCreate_unlog_fst (Call.Retrieve .clusterUserPasswordSecret)
      (Call.Create .clusterUserPasswordSecret)
      (c.RetrieveClusterUserPasswordSecret rs.customResource)
      (c.CreateClusterUserPasswordSecret rs.customResource)
      k.CreatedClusterUserPasswordSecret _ _ h4,
    retrieveOrCreate_unlog_snd (Call.Retrieve .clusterUserPasswordSecret)
      (Call.Create .clusterUserPasswordSecret)
      (c.RetrieveClusterUserPasswordSecret rs.customResource)
      (c.CreateClusterUserPasswordSecret rs.customResource)
      k.CreatedClusterUserPasswordSecret _ _ h4⟩

theorem Enter_unlog (k : Consts) (c : Collab W SS) (previousStateID : Int)
    (rs : CreatingK8sResourcesState (W × Log SS)) :
    (Enter k c.traced previousStateID rs).1 = (Enter k c previousStateID (unlog rs)).1 ∧
    unlog (Enter k c.traced previousStateID rs).2 = (Enter k c previousStateID (unlog rs)).2 := by
  unfold Enter
  split
  · exact ⟨rfl, (enterFromInvalidState_unlog k c rs).2⟩
  · exact ⟨rfl, rfl⟩

theorem Update_unlog (k : Consts) (c : Collab W SS)
    (rs : CreatingK8sResourcesState (W × Log SS)) :
    (Update k c.traced rs).1 = (Update k c (unlog rs)).1 ∧
    unlog (Update k c.traced rs).2 = (Update k c (unlog rs)).2 := by
  have hget : getOf c.traced rs = ((getOf c (unlog rs)).1, ((getOf c (unlog rs)).2,
      Call.clientGet (getOf c (unlog rs)).1.1 :: rs.world.2)) := rfl
  by_cases h : IsNotFound (getOf c (unlog rs)).1.1 = false
  · have hT : IsNotFound (getOf c.traced rs).1.1 = false := by rw [hget]; exact h
    by_cases hg : gating k rs.stepsComplete = false
    · rw [Update_notReady k c.traced rs hT hg, Update_notReady k c (unlog rs) h hg]
      have he := enterFromInvalidState_unlog k c (notReadyState c.traced rs)
      have hs : unlog (notReadyState c.traced rs) = notReadyState c (unlog rs) := rfl
      rw [hs] at he
      refine ⟨rfl, ?_⟩
      rw [← he.2]
      rfl
    · have hg' : gating k rs.stepsComplete = true := by simpa using hg
      rcases Nat.eq_zero_or_pos (processOf c (unlog rs)).1.1 with hn | hn
      · have hnT : (processOf c.traced rs).1.1 = 0 := hn
        rw [Update_ready_noDrift k c.traced rs hT hg' hnT,
          Update_ready_noDrift k c (unlog rs) h hg' hn]
        exact ⟨rfl, rfl⟩
      · have hnT : 0 < (processOf c.traced rs).1.1 := hn
        rw [Update_ready_drift k c.traced rs hT hg' hnT,
          Update_ready_drift k c (unlog rs) h hg' hn]
        exact ⟨rfl, rfl⟩
  · have h' : IsNotFound (getOf c (unlog rs)).1.1 = true := by simpa using h
    have hT : IsNotFound (getOf c.traced rs).1.1 = true := by rw [hget]; exact h'
    rw [Update_notFound k c.traced rs hT, Update_notFound k c (unlog rs) h']
    exact ⟨rfl, rfl⟩

/-! ## What the creation blocks record -/

theorem retrieveOrCreate_recorded (k : Consts) (hk : k.WF) (κ0 : Kind)
    (retrieve create : W → Option Error × W)
    (rs : CreatingK8sResourcesState (W × Log SS)) (pending : Kind → Prop) (hp : pending κ0)
    (hinv : Recorded k pending rs) :
    Recorded k (fun κ => pending κ ∧ κ ≠ κ0)
      (retrieveOrCreate (logged (Call.Retrieve κ0) retrieve) (logged (Call.Create κ0) create)
        (k.flag κ0) rs).2 := by
  obtain ⟨h1, h2, h3⟩ := hinv
  obtain ⟨hf, hd⟩ := hk.2
  have hd := hd.1
  rcases hr : retrieve rs.world.1 with ⟨re, rw⟩
  cases re with
  | none =>
    simp only [retrieveOrCreate, logged, hr]
    refine ⟨fun κ => ?_, fun κ => ?_, fun κ hp e => ?_⟩
    · simp [h1 κ]
    · intro hm
      simp only [List.mem_cons, Call.Retrieve.injEq, and_true] at hm
      rcases hm with hm | hm
      · subst hm
        have := (h3 κ hp none).2
        rcases Nat.eq_zero_or_pos (rs.stepsComplete &&& k.flag κ) with hz | hz
        · exact hz
        · exact absurd ((h1 κ).1 hz) this
      · exact h2 κ hm
    · have := h3 κ hp.1 e
      simp [this, hp.2]
  | some e0 =>
    rcases hc : create rw with ⟨ce, cw⟩
    cases ce with
    | none =>
      simp only [retrieveOrCreate, logged, hr, hc]
      refine ⟨fun κ => ?_, fun κ => ?_, fun κ hp e => ?_⟩
      · by_cases hκ : κ = κ0
        · subst hκ
          simp [setFlag_and_self _ _ (hf κ).1 (hf κ).2]
        · rw [setFlag_and_other _ _ _ (hd κ0 κ (Ne.symm hκ)) (hf κ).2]
          simp [h1 κ, hκ]
      · intro hm
        simp only [List.mem_cons, Call.Retrieve.injEq, reduceCtorEq, false_or] at hm
        rcases hm with hm | hm
        · simp at hm
        · have hκ : κ ≠ κ0 := by
            rintro rfl
            exact (h3 κ hp none).1 hm
          rw [setFlag_and_other _ _ _ (hd κ0 κ (Ne.symm hκ)) (hf κ).2]
          exact h2 κ hm
      · have := h3 κ hp.1 e
        simp [this, hp.2]
    | some e1 =>
      simp only [retrieveOrCreate, logged, hr, hc]
      refine ⟨fun κ => ?_, fun κ => ?_, fun κ hp e => ?_⟩
      · simp [h1 κ]
      · intro hm
        simp only [List.mem_cons, Call.Retrieve.injEq, reduceCtorEq, false_or] at hm
        rcases hm with hm | hm
        · simp at hm
        · exact h2 κ hm
      · have := h3 κ hp.1 e
        simp [this, hp.2]

theorem namedState_recorded (k : Consts) (c : Collab W SS) (pending : Kind → Prop)
    (rs : CreatingK8sResourcesState (W × Log SS)) (hinv : Recorded k pending rs) :
    Recorded k pending (namedState c.traced rs) := by
  obtain ⟨h1, h2, h3⟩ := hinv
  refine ⟨fun κ => ?_, fun κ => ?_, fun κ hp e => ?_⟩
  · simpa [namedState, generateNames, Collab.traced] using h1 κ
  · simpa [namedState, generateNames, Collab.traced] using h2 κ
  · simpa [namedState, generateNames, Collab.traced] using h3 κ hp e

theorem enterFromInvalidState_recorded (k : Consts) (hk : k.WF) (c : Collab W SS)
    (rs : CreatingK8sResourcesState (W × Log SS)) (hinv : Recorded k (fun _ => True) rs) :
    ∃ pending, Recorded k pending (enterFromInvalidState k c.traced rs).2 := by
  have h0 := namedState_recorded k c _ rs hinv
  have h1 := retrieveOrCreate_recorded k hk .statefulSet (c.ssRetrieve rs.customResource)
    (c.ssCreate rs.customResource) _ _ trivial h0
  have h2 := retrieveOrCreate_recorded k hk .headlessService (c.svcRetrieve rs.customResource)
    (c.svcCreate rs.customResource) _ _ ⟨trivial, by decide⟩ h1
  have h3 := retrieveOrCreate_recorded k hk .pingService
    (c.RetrievePingService rs.customResource) (c.CreatePingService rs.customResource) _ _
    ⟨⟨trivial, by decide⟩, by decide⟩ h2
  have h4 := retrieveOrCreate_recorded k hk .userPasswordSecret
    (c.RetrieveUserPasswordSecret rs.customResource)
    (c.CreateUserPasswordSecret rs.customResource) _ _
    ⟨⟨⟨trivial, by decide⟩, by decide⟩, by decide⟩ h3
  have h5 := retrieveOrCreate_recorded k hk .clusterUserPasswordSecret
    (c.RetrieveClusterUserPasswordSecret rs.customResource)
    (c.CreateClusterUserPasswordSecret rs.customResource) _ _
    ⟨⟨⟨⟨trivial, by decide⟩, by decide⟩, by decide⟩, by decide⟩ h4
  exact ⟨_, h5⟩

/-! ## Retrieval before creation -/

theorem retrieveOrCreate_guarded (κ0 : Kind) (retrieve create : W → Option Error × W)
    (flag : Nat) (rs : CreatingK8sResourcesState (W × Log SS))
    (h : createsGuarded rs.world.2 = true) :
    createsGuarded
      (retrieveOrCreate (logged (Call.Retrieve κ0) retrieve) (logged (Call.Create κ0) create)
        flag rs).2.world.2 = true := by
  rcases hr : retrieve rs.world.1 with ⟨re, rw⟩
  cases re with
  | none => simpa [retrieveOrCreate, logged, hr, createsGuarded] using h
  | some e0 =>
    rcases hc : create rw with ⟨ce, cw⟩
    cases ce <;> simpa [retrieveOrCreate, logged, hr, hc, createsGuarded] using h

theorem enterFromInvalidState_guarded (k : Consts) (c : Collab W SS)
    (rs : CreatingK8sResourcesState (W × Log SS)) (h : createsGuarded rs.world.2 = true) :
    createsGuarded (enterFromInvalidState k c.traced rs).2.world.2 = true := by
  have h0 : createsGuarded (namedState c.traced rs).world.2 = true := by
    simpa [namedState, generateNames, Collab.traced, createsGuarded] using h
  have h1 := retrieveOrCreate_guarded .statefulSet (c.ssRetrieve rs.customResource)
    (c.ssCreate rs.customResource) k.CreatedStatefulSet _ h0
  have h2 := retrieveOrCreate_guarded .headlessService (c.svcRetrieve rs.customResource)
    (c.svcCreate rs.customResource) k.CreatedHeadlessService _ h1
  have h3 := retrieveOrCreate_guarded .pingService (c.RetrievePingService rs.customResource)
    (c.CreatePingService rs.customResource) k.CreatedPingService _ h2
  have h4 := retrieveOrCreate_guarded .userPasswordSecret
    (c.RetrieveUserPasswordSecret rs.customResource)
    (c.CreateUserPasswordSecret rs.customResource) k.CreatedUserPasswordSecret _ h3
  have h5 := retrieveOrCreate_guarded .clusterUserPasswordSecret
    (c.RetrieveClusterUserPasswordSecret rs.customResource)
    (c.CreateClusterUserPasswordSecret rs.customResource) k.CreatedClusterUserPasswordSecret _ h4
  exact h5

theorem Cluster.present_withScript (cl : Cluster) (rest : List (Option Error)) (κ : Kind) :
    ({ cl with createScript := rest } : Cluster).present κ = cl.present κ := by
  cases κ <;> rfl

theorem Cluster.present_add (cl : Cluster) (κ0 κ : Kind) (h : cl.present κ = true) :
    (cl.add κ0).present κ = true := by
  cases κ0 <;> cases κ <;> first | exact h | rfl

theorem retrieveOrCreate_kept (κ κ0 : Kind) (flag : Nat)
    (rs : CreatingK8sResourcesState (Cluster × Log Nat)) (h : Kept κ rs) :
    Kept κ
      (retrieveOrCreate (logged (Call.Retrieve κ0) (Cluster.retrieve κ0))
        (logged (Call.Create κ0) (Cluster.create κ0)) flag rs).2 := by
  obtain ⟨hp, hl⟩ := h
  by_cases hκ : κ0 = κ
  · subst hκ
    have hr : Cluster.retrieve κ0 rs.world.1 = (none, rs.world.1) := by
      simp [Cluster.retrieve, hp]
    refine ⟨?_, fun e => ?_⟩
    · simpa [retrieveOrCreate, logged, hr] using hp
    · simpa [retrieveOrCreate, logged, hr] using hl e
  · have hne : ∀ e, Call.Create κ e ≠ (Call.Create κ0 e : Call Nat) := by
      intro e he
      injection he with he'
      exact hκ he'.symm
    cases hp0 : rs.world.1.present κ0 with
    | true =>
      have hr : Cluster.retrieve κ0 rs.world.1 = (none, rs.world.1) := by
        simp [Cluster.retrieve, hp0]
      refine ⟨?_, fun e => ?_⟩
      · simpa [retrieveOrCreate, logged, hr] using hp
      · simpa [retrieveOrCreate, logged, hr] using hl e
    | false =>
      have hr : Cluster.retrieve κ0 rs.world.1 = (some errNotFound, rs.world.1) := by
        simp [Cluster.retrieve, hp0]
      rcases hs : rs.world.1.createScript with _ | ⟨o, rest⟩
      · have hc : Cluster.create κ0 rs.world.1 = (none, rs.world.1.add κ0) := by
          simp [Cluster.create, hp0, hs]
        refine ⟨?_, fun e => ?_⟩
        · simpa [retrieveOrCreate, logged, hr, hc] using Cluster.present_add _ κ0 κ hp
        · simpa [retrieveOrCreate, logged, hr, hc, Ne.symm hκ] using hl e
      · cases o with
        | none =>
          have hc : Cluster.create κ0 rs.world.1
              = (none, { rs.world.1.add κ0 with createScript := rest }) := by
            simp [Cluster.create, hp0, hs]
          refine ⟨?_, fun e => ?_⟩
          · simpa [retrieveOrCreate, logged, hr, hc, Cluster.present_withScript]
              using Cluster.present_add _ κ0 κ hp
          · simpa [retrieveOrCreate, logged, hr, hc, Ne.symm hκ] using hl e
        | some e1 =>
          have hc : Cluster.create κ0 rs.world.1
              = (some e1, { rs.world.1 with createScript := rest }) := by
            simp [Cluster.create, hp0, hs]
          refine ⟨?_, fun e => ?_⟩
          · simpa [retrieveOrCreate, logged, hr, hc, Cluster.present_withScript] using hp
          · simpa [retrieveOrCreate, logged, hr, hc, Ne.symm hκ] using hl e

theorem enterFromInvalidState_kept (k : Consts) (κ : Kind)
    (rs : CreatingK8sResourcesState (Cluster × Log Nat)) (h : Kept κ rs) :
    Kept κ (enterFromInvalidState k clusterCollab.traced rs).2 := by
  have h0 : Kept κ (namedState clusterCollab.traced rs) := by
    obtain ⟨hp, hl⟩ := h
    refine ⟨?_, fun e => ?_⟩
    · simpa [namedState, generateNames, Collab.traced, clusterCollab] using hp
    · simpa [namedState, generateNames, Collab.traced, clusterCollab] using hl e
  have h1 := retrieveOrCreate_kept κ .statefulSet k.CreatedStatefulSet _ h0
  have h2 := retrieveOrCreate_kept κ .headlessService k.CreatedHeadlessService _ h1
  have h3 := retrieveOrCreate_kept κ .pingService k.CreatedPingService _ h2
  have h4 := retrieveOrCreate_kept κ .userPasswordSecret k.CreatedUserPasswordSecret _ h3
  have h5 := retrieveOrCreate_kept κ .clusterUserPasswordSecret
    k.CreatedClusterUserPasswordSecret _ h4
  exact h5

/-! ## Convergence from an empty cluster -/

theorem afterFirstTick_eq (k : Consts) (cr : CustomResource) (res : Result) (drift : Nat) :
    afterFirstTick k cr res drift =
      { stepsComplete :=
          (((((k.None ||| k.CreatedStatefulSet) % 256 ||| k.CreatedHeadlessService) % 256
            ||| k.CreatedPingService) % 256 ||| k.CreatedUserPasswordSecret) % 256
            ||| k.CreatedClusterUserPasswordSecret) % 256,
        customResource := cr, result := res, world := fullCluster drift } := by
  simp [afterFirstTick, Enter, enterFromInvalidState, retrieveOrCreate, generateNames,
    MakeCreatingK8sResourcesState, clusterCollab, Cluster.retrieve, Cluster.create,
    Cluster.present, Cluster.add, emptyCluster, fullCluster]

theorem afterFirstTick_flags (k : Consts) (hk : k.WF) (cr : CustomResource) (res : Result)
    (drift : Nat) (κ : Kind) :
    0 < (afterFirstTick k cr res drift).stepsComplete &&& k.flag κ := by
  rw [afterFirstTick_eq]
  have hf := hk.2.1
  cases κ
  · exact setFlag_keeps _ _ _ (hf .statefulSet).2 (setFlag_keeps _ _ _ (hf .statefulSet).2
      (setFlag_keeps _ _ _ (hf .statefulSet).2 (setFlag_keeps _ _ _ (hf .statefulSet).2
        (setFlag_and_self _ _ (hf .statefulSet).1 (hf .statefulSet).2))))
  · exact setFlag_keeps _ _ _ (hf .headlessService).2
      (setFlag_keeps _ _ _ (hf .headlessService).2 (setFlag_keeps _ _ _ (hf .headlessService).2
        (setFlag_and_self _ _ (hf .headlessService).1 (hf .headlessService).2)))
  · exact setFlag_keeps _ _ _ (hf .pingService).2 (setFlag_keeps _ _ _ (hf .pingService).2
      (setFlag_and_self _ _ (hf .pingService).1 (hf .pingService).2))
  · exact setFlag_keeps _ _ _ (hf .userPasswordSecret).2
      (setFlag_and_self _ _ (hf .userPasswordSecret).1 (hf .userPasswordSecret).2)
  · exact setFlag_and_self _ _ (hf .clusterUserPasswordSecret).1
      (hf .clusterUserPasswordSecret).2

/-! ## C1: when `Update` moves on to scaling -/

/-- C1, as stated, fails: with the three gating bits set and three replicas
requested, `Update` over a cluster whose workload is gone (the `Get` answers
NotFound) stays in `CreatingK8sResourcesID`. -/
theorem gating_alone_does_not_scale :
    ¬ ((Update sampleConsts clusterCollab (stateOver 7 3 (emptyCluster 0))).1.2
          = sampleConsts.ScalingID ↔
        (gating sampleConsts (stateOver 7 3 (emptyCluster 0)).stepsComplete = true
          ∧ 0 < (stateOver 7 3 (emptyCluster 0)).customResource.Size)) := by
  decide

/-- C1, amended: `Update` returns `ScalingID` exactly when the workload `Get`
did not fail with NotFound, the three gating bits are set, the drift count is
zero or the `client.Update` of the corrected workload succeeded, and
`DeploymentPlan.Size` is positive; flipping either secret bit of
`stepsComplete` never changes the returned next state. -/
theorem Update_scaling_iff (k : Consts) (hk : k.WF) (c : Collab W SS)
    (rs : CreatingK8sResourcesState W) :
    ((Update k c rs).1.2 = k.ScalingID ↔
      IsNotFound (getOf c rs).1.1 = false ∧ gating k rs.stepsComplete = true
        ∧ ((processOf c rs).1.1 = 0 ∨ (updateOf c rs).1 = none)
        ∧ 0 < rs.customResource.Size) ∧
    (Update k c { rs with stepsComplete := rs.stepsComplete ^^^ k.CreatedUserPasswordSecret }).1.2
      = (Update k c rs).1.2 ∧
    (Update k c
        { rs with stepsComplete := rs.stepsComplete ^^^ k.CreatedClusterUserPasswordSecret }).1.2
      = (Update k c rs).1.2 := by
  refine ⟨?_, ?_, ?_⟩
  · rw [Update_next]
    constructor
    · intro h
      by_contra hc
      rw [if_neg hc] at h
      exact hk.2.2.2.1 h.symm
    · intro h
      rw [if_pos h]
  · rw [Update_next, Update_next]
    simp only [getOf, processOf, updateOf, gating_xor_userSecret k hk]
  · rw [Update_next, Update_next]
    simp only [getOf, processOf, updateOf, gating_xor_clusterSecret k hk]

/-- C1, at a concrete run: all five resources exist, two fields have drifted,
three replicas are requested and the three gating bits are set. -/
theorem Update_scaling_iff_witness :
    sampleConsts.WF ∧
    (((Update sampleConsts clusterCollab (stateOver 7 3 (fullCluster 2))).1.2
        = sampleConsts.ScalingID ↔
      IsNotFound (getOf clusterCollab (stateOver 7 3 (fullCluster 2))).1.1 = false
        ∧ gating sampleConsts (stateOver 7 3 (fullCluster 2)).stepsComplete = true
        ∧ ((processOf clusterCollab (stateOver 7 3 (fullCluster 2))).1.1 = 0
            ∨ (updateOf clusterCollab (stateOver 7 3 (fullCluster 2))).1 = none)
        ∧ 0 < (stateOver 7 3 (fullCluster 2)).customResource.Size) ∧
    (Update sampleConsts clusterCollab
        { stateOver 7 3 (fullCluster 2) with
          stepsComplete := (stateOver 7 3 (fullCluster 2)).stepsComplete
            ^^^ sampleConsts.CreatedUserPasswordSecret }).1.2
      = (Update sampleConsts clusterCollab (stateOver 7 3 (fullCluster 2))).1.2 ∧
    (Update sampleConsts clusterCollab
        { stateOver 7 3 (fullCluster 2) with
          stepsComplete := (stateOver 7 3 (fullCluster 2)).stepsComplete
            ^^^ sampleConsts.CreatedClusterUserPasswordSecret }).1.2
      = (Update sampleConsts clusterCollab (stateOver 7 3 (fullCluster 2))).1.2) :=
  ⟨sampleConsts_WF,
    Update_scaling_iff sampleConsts sampleConsts_WF clusterCollab (stateOver 7 3 (fullCluster 2))⟩

/-! ## C2: when `Update` stays -/

/-- C2: the next state `Update` returns is `CreatingK8sResourcesID`, and so is
not `ScalingID`, unless the three gating bits are set at the start of
`Update` and `DeploymentPlan.Size` is positive; with `Size = 0` the premise
holds whatever the bits and the drift. -/
theorem Update_stays_unless_gated (k : Consts) (c : Collab W SS)
    (rs : CreatingK8sResourcesState W)
    (hid : k.ScalingID ≠ k.CreatingK8sResourcesID)
    (h : ¬ (gating k rs.stepsComplete = true ∧ 0 < rs.customResource.Size)) :
    (Update k c rs).1.2 = k.CreatingK8sResourcesID ∧ (Update k c rs).1.2 ≠ k.ScalingID := by
  have hn : (Update k c rs).1.2 = k.CreatingK8sResourcesID := by
    rw [Update_next, if_neg]
    rintro ⟨_, hg, _, hs⟩
    exact h ⟨hg, hs⟩
  exact ⟨hn, fun hs => hid (hs.symm.trans hn)⟩

/-- C2, at a concrete run: all gating bits set, no drift, `Size = 0`. -/
theorem Update_stays_unless_gated_witness :
    sampleConsts.ScalingID ≠ sampleConsts.CreatingK8sResourcesID ∧
    ¬ (gating sampleConsts (stateOver 7 0 (fullCluster 0)).stepsComplete = true
        ∧ 0 < (stateOver 7 0 (fullCluster 0)).customResource.Size) ∧
    (Update sampleConsts clusterCollab (stateOver 7 0 (fullCluster 0))).1.2
      = sampleConsts.CreatingK8sResourcesID ∧
    (Update sampleConsts clusterCollab (stateOver 7 0 (fullCluster 0))).1.2
      ≠ sampleConsts.ScalingID :=
  ⟨by decide, by decide,
    Update_stays_unless_gated sampleConsts clusterCollab (stateOver 7 0 (fullCluster 0))
      (by decide) (by decide)⟩

/-! ## C3: the requeue of the not-ready path -/

/-- C3, as stated, fails: the workload bit is unset and the workload `Get`
answers NotFound; `Update` returns `CreatingK8sResourcesID` but leaves the
reconcile result as it was, without the 5-second requeue. -/
theorem notFound_skips_requeue :
    gating sampleConsts (stateOver 6 3 (emptyCluster 0)).stepsComplete = false ∧
    (Update sampleConsts clusterCollab (stateOver 6 3 (emptyCluster 0))).1.2
      = sampleConsts.CreatingK8sResourcesID ∧
    (Update sampleConsts clusterCollab (stateOver 6 3 (emptyCluster 0))).2.result
      = { Requeue := false, RequeueAfter := 0 } ∧
    (Update sampleConsts clusterCollab (stateOver 6 3 (emptyCluster 0))).2.result
      ≠ { Requeue := true, RequeueAfter := 5 * Second } := by
  decide

/-- C3, amended: when a gating bit is unset at the start of `Update`, the
returned next state is `CreatingK8sResourcesID` for every outcome of the
workload `Get`; the reconcile result becomes `Requeue = true`,
`RequeueAfter = 5 s` when the `Get` succeeds or fails with an error other than
NotFound, and is left as it was when the `Get` fails with NotFound. -/
theorem Update_not_ready_requeue (k : Consts) (c : Collab W SS) (rs : CreatingK8sResourcesState W)
    (hg : gating k rs.stepsComplete = false) :
    (Update k c rs).1.2 = k.CreatingK8sResourcesID ∧
    (IsNotFound (getOf c rs).1.1 = false →
      (Update k c rs).2.result = { Requeue := true, RequeueAfter := 5 * Second }) ∧
    (IsNotFound (getOf c rs).1.1 = true → (Update k c rs).2.result = rs.result) := by
  refine ⟨?_, ?_, ?_⟩
  · rw [Update_next, if_neg]
    rintro ⟨_, hg', _⟩
    rw [hg] at hg'
    exact Bool.noConfusion hg'
  · intro h
    rw [Update_notReady k c rs h hg]
    simp [enterFromInvalidState_result, notReadyState, requeue5, Second]
  · intro h
    rw [Update_notFound k c rs h]

/-- C3, at a concrete run: the workload exists but its bit is unset. -/
theorem Update_not_ready_requeue_witness :
    gating sampleConsts (stateOver 6 3 (fullCluster 0)).stepsComplete = false ∧
    (Update sampleConsts clusterCollab (stateOver 6 3 (fullCluster 0))).1.2
      = sampleConsts.CreatingK8sResourcesID ∧
    (IsNotFound (getOf clusterCollab (stateOver 6 3 (fullCluster 0))).1.1 = false →
      (Update sampleConsts clusterCollab (stateOver 6 3 (fullCluster 0))).2.result
        = { Requeue := true, RequeueAfter := 5 * Second }) ∧
    (IsNotFound (getOf clusterCollab (stateOver 6 3 (fullCluster 0))).1.1 = true →
      (Update sampleConsts clusterCollab (stateOver 6 3 (fullCluster 0))).2.result
        = (stateOver 6 3 (fullCluster 0)).result) :=
  ⟨by decide,
    Update_not_ready_requeue sampleConsts clusterCollab (stateOver 6 3 (fullCluster 0)) (by decide)⟩

/-! ## C4: what `Enter` returns -/

/-- C4, as stated, fails: over the empty cluster all five retrievals of
`Enter(NotCreatedID)` fail with NotFound, the last of them the retrieval of
the cluster secret, and `Enter` returns `nil`. -/
theorem Enter_drops_retrieval_error :
    Call.Retrieve Kind.clusterUserPasswordSecret (some errNotFound) ∈
      (Enter sampleConsts clusterCollab.traced sampleConsts.NotCreatedID
        (tracedOver 0 3 (emptyCluster 0))).2.world.2 ∧
    (Enter sampleConsts clusterCollab sampleConsts.NotCreatedID
      (stateOver 0 3 (emptyCluster 0))).1 = none := by
  decide

/-- C4, amended: `Enter` returns `nil` for every previous state id and every
outcome of the retrievals and creations; for `NotCreatedID` it does the work
of `enterFromInvalidState` and drops the error that function returns, so
neither a retrieval error nor a creation error reaches the caller of `Enter`. -/
theorem Enter_returns_nil (k : Consts) (c : Collab W SS) (previousStateID : Int)
    (rs : CreatingK8sResourcesState W) :
    (Enter k c previousStateID rs).1 = none ∧
    Enter k c k.NotCreatedID rs = (none, (enterFromInvalidState k c rs).2) := by
  constructor
  · unfold Enter
    split <;> rfl
  · simp [Enter]

/-! ## C5: a failed workload `Get` -/

/-- C5, as stated, fails.  On NotFound (empty cluster, nothing recorded in
`stepsComplete`) `Update` makes two collaborator calls, the `Get` and the
status refresh: no requeue is requested and the workload, which
`enterFromInvalidState` would have created, is still absent.  On an internal
error of the `Get` the error is returned, not cleared. -/
theorem notFound_skips_recreation :
    (Update sampleConsts clusterCollab.traced (tracedOver 0 3 (emptyCluster 0))).2.world.2
      = [Call.UpdatePodStatus, Call.clientGet (some errNotFound)] ∧
    (Update sampleConsts clusterCollab (stateOver 0 3 (emptyCluster 0))).2.result.Requeue = false ∧
    (Update sampleConsts clusterCollab (stateOver 0 3 (emptyCluster 0))).2.world.statefulSet
      = false ∧
    (enterFromInvalidState sampleConsts clusterCollab
        (notReadyState clusterCollab (stateOver 0 3 (emptyCluster 0)))).2.world.statefulSet
      = true ∧
    (Update sampleConsts clusterCollab (stateOver 0 3 faultyCluster)).1.1
      = some { notFound := false, tag := 500 } := by
  decide

/-- C5, amended: if the workload `Get` fails with NotFound, `Update` clears the
error and returns `(nil, CreatingK8sResourcesID)` with `stepsComplete` and the
reconcile result untouched, the world having passed through the `Get` and the
status refresh only (no requeue, no `enterFromInvalidState`).  If it fails with
another error and a gating bit is unset, `Update` takes the not-ready path
(5-second requeue, then `enterFromInvalidState`) and returns that error, not
`nil`, with next state `CreatingK8sResourcesID`. -/
theorem Update_get_failure (k : Consts) (c : Collab W SS) (rs : CreatingK8sResourcesState W) :
    (IsNotFound (getOf c rs).1.1 = true →
      Update k c rs =
        ((none, k.CreatingK8sResourcesID),
          { rs with world := c.UpdatePodStatus rs.customResource (getOf c rs).2 })) ∧
    (∀ e : Error, (getOf c rs).1.1 = some e → e.notFound = false →
      gating k rs.stepsComplete = false →
      Update k c rs =
        ((some e, k.CreatingK8sResourcesID),
          { (enterFromInvalidState k c
                { rs with
                  result := { Requeue := true, RequeueAfter := Second * 5 },
                  world := (getOf c rs).2 }).2 with
            world := c.UpdatePodStatus rs.customResource
              (enterFromInvalidState k c
                { rs with
                  result := { Requeue := true, RequeueAfter := Second * 5 },
                  world := (getOf c rs).2 }).2.world })) := by
  refine ⟨Update_notFound k c rs, ?_⟩
  intro e he hnf hg
  have h : IsNotFound (getOf c rs).1.1 = false := by rw [he]; exact hnf
  rw [Update_notReady k c rs h hg, he]
  rfl

/-- C5, at two concrete runs: a NotFound answer over the empty cluster, and an
internal error of the `Get` with nothing recorded in `stepsComplete`. -/
theorem Update_get_failure_witness :
    (IsNotFound (getOf clusterCollab (stateOver 0 3 (emptyCluster 0))).1.1 = true ∧
      Update sampleConsts clusterCollab (stateOver 0 3 (emptyCluster 0)) =
        ((none, sampleConsts.CreatingK8sResourcesID), stateOver 0 3 (emptyCluster 0))) ∧
    ((getOf clusterCollab (stateOver 0 3 faultyCluster)).1.1
        = some { notFound := false, tag := 500 } ∧
      gating sampleConsts (stateOver 0 3 faultyCluster).stepsComplete = false ∧
      (Update sampleConsts clusterCollab (stateOver 0 3 faultyCluster)).1
        = (some { notFound := false, tag := 500 }, sampleConsts.CreatingK8sResourcesID) ∧
      (Update sampleConsts clusterCollab (stateOver 0 3 faultyCluster)).2.result
        = { Requeue := true, RequeueAfter := Second * 5 } ∧
      (Update sampleConsts clusterCollab (stateOver 0 3 faultyCluster)).2.stepsComplete = 31) :=
  ⟨⟨by decide,
      (Update_get_failure sampleConsts clusterCollab (stateOver 0 3 (emptyCluster 0))).1
        (by decide)⟩,
    by decide, by decide,
    by rw [(Update_get_failure sampleConsts clusterCollab (stateOver 0 3 faultyCluster)).2
        { notFound := false, tag := 500 } (by decide) (by decide) (by decide)],
    by decide, by decide⟩

/-! ## C6: what the bits record -/

/-- C6, as stated, fails: all five resources exist, `stepsComplete` is empty,
and after `Enter(NotCreatedID)` it is still empty: every retrieval succeeded
and no bit was set. -/
theorem existing_resources_leave_bits_unset :
    (Enter sampleConsts clusterCollab.traced sampleConsts.NotCreatedID
        (tracedOver sampleConsts.None 3 (fullCluster 0))).2.world.2
      = [Call.Retrieve Kind.clusterUserPasswordSecret none,
          Call.Retrieve Kind.userPasswordSecret none,
          Call.Retrieve Kind.pingService none,
          Call.Retrieve Kind.headlessService none,
          Call.Retrieve Kind.statefulSet none,
          Call.labelGenerate, Call.podsNameGenerate, Call.headlessNameGenerate,
          Call.ssNameGenerate] ∧
    (Enter sampleConsts clusterCollab sampleConsts.NotCreatedID
        (stateOver sampleConsts.None 3 (fullCluster 0))).2.stepsComplete = 0 ∧
    (Enter sampleConsts clusterCollab sampleConsts.NotCreatedID
        (stateOver sampleConsts.None 3 (fullCluster 0))).2.stepsComplete
      &&& sampleConsts.CreatedStatefulSet = 0 := by
  decide

/-- C6, amended: after `Enter(NotCreatedID)` on an empty `stepsComplete`, the
bit of a resource is set exactly when this call created the resource (its
`Create` was issued and succeeded); a resource whose retrieval succeeded has
its bit unset. -/
theorem Enter_bits_record_creations (k : Consts) (hk : k.WF) (c : Collab W SS)
    (rs : CreatingK8sResourcesState W) (hs : rs.stepsComplete = k.None) (κ : Kind) :
    (0 < (Enter k c k.NotCreatedID rs).2.stepsComplete &&& k.flag κ ↔
      Call.Create κ none ∈ (Enter k c.traced k.NotCreatedID (withLog rs)).2.world.2) ∧
    (Call.Retrieve κ none ∈ (Enter k c.traced k.NotCreatedID (withLog rs)).2.world.2 →
      (Enter k c k.NotCreatedID rs).2.stepsComplete &&& k.flag κ = 0) := by
  have hinit : Recorded k (fun _ => True)
      (withLog rs : CreatingK8sResourcesState (W × Log SS)) := by
    refine ⟨fun κ => ?_, fun κ => ?_, fun κ _ e => ?_⟩
    · simp [withLog, hs, hk.1]
    · simp [withLog]
    · simp [withLog]
  obtain ⟨p, h1, h2, _⟩ := enterFromInvalidState_recorded k hk c (withLog rs) hinit
  have hsim : (Enter k c k.NotCreatedID rs).2.stepsComplete
      = (Enter k c.traced k.NotCreatedID (withLog rs)).2.stepsComplete :=
    (congrArg CreatingK8sResourcesState.stepsComplete
      (Enter_unlog k c k.NotCreatedID (withLog rs)).2).symm
  rw [hsim, Enter_notCreated k c.traced (withLog rs)]
  exact ⟨h1 κ, h2 κ⟩

/-- C6, at a concrete run: over the empty cluster the workload is created and
its bit is set. -/
theorem Enter_bits_record_creations_witness :
    (sampleConsts.WF ∧ (stateOver 0 3 (emptyCluster 0)).stepsComplete = sampleConsts.None) ∧
    ((0 < (Enter sampleConsts clusterCollab sampleConsts.NotCreatedID
          (stateOver 0 3 (emptyCluster 0))).2.stepsComplete
          &&& sampleConsts.flag Kind.statefulSet ↔
      Call.Create Kind.statefulSet none ∈
        (Enter sampleConsts clusterCollab.traced sampleConsts.NotCreatedID
          (withLog (stateOver 0 3 (emptyCluster 0)))).2.world.2) ∧
    (Call.Retrieve Kind.statefulSet none ∈
        (Enter sampleConsts clusterCollab.traced sampleConsts.NotCreatedID
          (withLog (stateOver 0 3 (emptyCluster 0)))).2.world.2 →
      (Enter sampleConsts clusterCollab sampleConsts.NotCreatedID
          (stateOver 0 3 (emptyCluster 0))).2.stepsComplete
          &&& sampleConsts.flag Kind.statefulSet = 0)) :=
  ⟨⟨sampleConsts_WF, rfl⟩,
    Enter_bits_record_creations sampleConsts sampleConsts_WF clusterCollab
      (stateOver 0 3 (emptyCluster 0)) rfl Kind.statefulSet⟩

/-! ## C7: bits are never cleared -/

/-- C7: every bit of the `uint8` field `stepsComplete` that is set before
`Enter` (with any previous state id), `Update` or `Exit` is still set after
it, for every outcome of the collaborator calls. -/
theorem stepsComplete_monotone (k : Consts) (c : Collab W SS) (previousStateID : Int)
    (rs : CreatingK8sResourcesState W) (i : Nat) (hi : i < 8)
    (hb : rs.stepsComplete.testBit i = true) :
    (Enter k c previousStateID rs).2.stepsComplete.testBit i = true ∧
    (Update k c rs).2.stepsComplete.testBit i = true ∧
    (Exit rs).2.stepsComplete.testBit i = true := by
  refine ⟨?_, ?_, hb⟩
  · unfold Enter
    split
    · exact enterFromInvalidState_testBit k c rs i hi hb
    · exact hb
  · rw [Update_stepsComplete]
    split
    · exact enterFromInvalidState_testBit k c _ i hi hb
    · exact hb

/-- C7, at a concrete run: the headless-service bit over the empty cluster. -/
theorem stepsComplete_monotone_witness :
    (1 < 8 ∧ (stateOver 2 3 (emptyCluster 0)).stepsComplete.testBit 1 = true) ∧
    ((Enter sampleConsts clusterCollab sampleConsts.NotCreatedID
        (stateOver 2 3 (emptyCluster 0))).2.stepsComplete.testBit 1 = true ∧
      (Update sampleConsts clusterCollab (stateOver 2 3 (emptyCluster 0))).2.stepsComplete.testBit 1
        = true ∧
      (Exit (stateOver 2 3 (emptyCluster 0))).2.stepsComplete.testBit 1 = true) :=
  ⟨⟨by decide, by decide⟩,
    stepsComplete_monotone sampleConsts clusterCollab sampleConsts.NotCreatedID
      (stateOver 2 3 (emptyCluster 0)) 1 (by decide) (by decide)⟩


/-! ## C8: no duplicate creation -/

/-- C8: in the call log of `Enter(NotCreatedID)` every `Create` comes right
after a failed `Retrieve` of the same kind; and over the cluster model (a
created resource is retrievable afterwards), a second `Enter(NotCreatedID)`
run on the state and cluster the first one left issues no `Create` for any
resource that exists after the first. -/
theorem Enter_idempotent (k : Consts) (c : Collab W SS) (rs : CreatingK8sResourcesState W)
    (rsC : CreatingK8sResourcesState Cluster) (κ : Kind) :
    createsGuarded (Enter k c.traced k.NotCreatedID (withLog rs)).2.world.2 = true ∧
    ((Enter k clusterCollab k.NotCreatedID rsC).2.world.present κ = true →
      ∀ e, Call.Create κ e ∉
        (Enter k clusterCollab.traced k.NotCreatedID
          (withLog (Enter k clusterCollab k.NotCreatedID rsC).2)).2.world.2) := by
  constructor
  · rw [Enter_notCreated]
    exact enterFromInvalidState_guarded k c (withLog rs) rfl
  · intro hp
    rw [Enter_notCreated k clusterCollab.traced]
    exact (enterFromInvalidState_kept k κ _ ⟨hp, fun e => by simp [withLog]⟩).2

/-- C8, at a concrete run: the first `Enter` fails to create the workload and
creates the headless service; the second issues no `Create` for the headless
service. -/
theorem Enter_idempotent_witness :
    (Enter sampleConsts clusterCollab sampleConsts.NotCreatedID
        (stateOver 0 3 flakyCluster)).2.world.present Kind.headlessService = true ∧
    createsGuarded
      (Enter sampleConsts clusterCollab.traced sampleConsts.NotCreatedID
        (withLog (stateOver 0 3 flakyCluster))).2.world.2 = true ∧
    ∀ e, Call.Create Kind.headlessService e ∉
      (Enter sampleConsts clusterCollab.traced sampleConsts.NotCreatedID
        (withLog (Enter sampleConsts clusterCollab sampleConsts.NotCreatedID
          (stateOver 0 3 flakyCluster)).2)).2.world.2 :=
  ⟨by decide,
    (Enter_idempotent sampleConsts clusterCollab (stateOver 0 3 flakyCluster)
      (stateOver 0 3 flakyCluster) Kind.headlessService).1,
    (Enter_idempotent sampleConsts clusterCollab (stateOver 0 3 flakyCluster)
      (stateOver 0 3 flakyCluster) Kind.headlessService).2 (by decide)⟩

/-! ## C9: persisting a drift correction -/

/-- C9: in `Update`, with the workload found and the three gating bits set,
a nonzero drift count is followed by exactly one `client.Update`, called on
the object the drift reconciler corrected; if that call fails `Update` returns
its error and `CreatingK8sResourcesID`, whatever `DeploymentPlan.Size`; a zero
drift count is followed by no `client.Update`. -/
theorem Update_drift_persisted (k : Consts) (c : Collab W SS)
    (rs : CreatingK8sResourcesState W)
    (hfound : (getOf c rs).1.1 = none) (hg : gating k rs.stepsComplete = true) :
    (0 < (processOf c rs).1.1 →
      (Update k c.traced (withLog rs)).2.world.2
        = [Call.UpdatePodStatus,
            Call.clientUpdate (processOf c rs).1.2 (updateOf c rs).1,
            Call.Process (processOf c rs).1.1,
            Call.clientGet none] ∧
      (Update k c.traced (withLog rs)).2.world.2.countP Call.isClientUpdate = 1 ∧
      (∀ e : Error, (updateOf c rs).1 = some e →
        (Update k c rs).1 = (some e, k.CreatingK8sResourcesID))) ∧
    ((processOf c rs).1.1 = 0 →
      (Update k c.traced (withLog rs)).2.world.2
        = [Call.UpdatePodStatus, Call.Process (processOf c rs).1.1, Call.clientGet none] ∧
      (Update k c.traced (withLog rs)).2.world.2.countP Call.isClientUpdate = 0) := by
  have hnf : IsNotFound (getOf c rs).1.1 = false := by rw [hfound]; rfl
  have hnfT : IsNotFound (getOf c.traced (withLog rs)).1.1 = false := by
    rw [getOf_traced]; exact hnf
  have hgT : gating k (withLog rs : CreatingK8sResourcesState (W × Log SS)).stepsComplete
      = true := hg
  constructor
  · intro hn
    have hnT : 0 < (processOf c.traced (withLog rs)).1.1 := by
      rw [processOf_traced]; exact hn
    have hlog : (Update k c.traced (withLog rs)).2.world.2
        = [Call.UpdatePodStatus,
            Call.clientUpdate (processOf c rs).1.2 (updateOf c rs).1,
            Call.Process (processOf c rs).1.1,
            Call.clientGet none] := by
      rw [Update_ready_drift k c.traced (withLog rs) hnfT hgT hnT, updateOf_traced, hfound]
      rfl
    refine ⟨hlog, ?_, ?_⟩
    · rw [hlog]
      simp [List.countP_cons, Call.isClientUpdate]
    · intro e he
      rw [Update_ready_drift k c rs hnf hg hn, he]
      simp
  · intro hn
    have hnT : (processOf c.traced (withLog rs)).1.1 = 0 := by
      rw [processOf_traced]; exact hn
    have hlog : (Update k c.traced (withLog rs)).2.world.2
        = [Call.UpdatePodStatus, Call.Process (processOf c rs).1.1, Call.clientGet none] := by
      rw [Update_ready_noDrift k c.traced (withLog rs) hnfT hgT hnT, processOf_traced, hfound]
      rfl
    refine ⟨hlog, ?_⟩
    rw [hlog]
    simp [List.countP_cons, Call.isClientUpdate]

/-- C9, at a concrete run: two fields of drift and a refused `client.Update`. -/
theorem Update_drift_persisted_witness :
    ((getOf clusterCollab (stateOver 7 3 refusingCluster)).1.1 = none ∧
      gating sampleConsts (stateOver 7 3 refusingCluster).stepsComplete = true ∧
      0 < (processOf clusterCollab (stateOver 7 3 refusingCluster)).1.1) ∧
    ((Update sampleConsts clusterCollab.traced (withLog (stateOver 7 3 refusingCluster))).2.world.2
        = [Call.UpdatePodStatus,
            Call.clientUpdate (processOf clusterCollab (stateOver 7 3 refusingCluster)).1.2
              (updateOf clusterCollab (stateOver 7 3 refusingCluster)).1,
            Call.Process (processOf clusterCollab (stateOver 7 3 refusingCluster)).1.1,
            Call.clientGet none] ∧
      (Update sampleConsts clusterCollab.traced
          (withLog (stateOver 7 3 refusingCluster))).2.world.2.countP Call.isClientUpdate = 1 ∧
      (∀ e : Error, (updateOf clusterCollab (stateOver 7 3 refusingCluster)).1 = some e →
        (Update sampleConsts clusterCollab (stateOver 7 3 refusingCluster)).1
          = (some e, sampleConsts.CreatingK8sResourcesID))) :=
  ⟨⟨by decide, by decide, by decide⟩,
    (Update_drift_persisted sampleConsts clusterCollab (stateOver 7 3 refusingCluster)
      (by decide) (by decide)).1 (by decide)⟩

/-! ## C10: two ticks from an empty cluster -/

/-- C10: from the empty cluster, a freshly made state and a custom resource
asking for `Size > 0` replicas, with every cluster call succeeding, tick 1
(`Enter(NotCreatedID)`) issues a successful `Create` for each of the five
resources, leaves all five in the cluster and sets all five bits; the `Update`
that follows finds the workload, sees the gating bits set and returns
`(nil, ScalingID)`. -/
theorem converges_in_two_ticks (k : Consts) (hk : k.WF) (cr : CustomResource)
    (hN : 0 < cr.Size) (res : Result) (drift : Nat) :
    (∀ κ, (emptyCluster drift).present κ = false) ∧
    (∀ κ, Call.Create κ none ∈
      (Enter k clusterCollab.traced k.NotCreatedID
        (withLog (MakeCreatingK8sResourcesState k cr res (emptyCluster drift)))).2.world.2) ∧
    (∀ κ, (afterFirstTick k cr res drift).world.present κ = true) ∧
    (∀ κ, 0 < (afterFirstTick k cr res drift).stepsComplete &&& k.flag κ) ∧
    (getOf clusterCollab (afterFirstTick k cr res drift)).1.1 = none ∧
    gating k (afterFirstTick k cr res drift).stepsComplete = true ∧
    (Update k clusterCollab (afterFirstTick k cr res drift)).1 = (none, k.ScalingID) := by
  have hbits := afterFirstTick_flags k hk cr res drift
  have hgate : gating k (afterFirstTick k cr res drift).stepsComplete = true := by
    have h1 := hbits .statefulSet
    have h2 := hbits .headlessService
    have h3 := hbits .pingService
    simp only [Consts.flag] at h1 h2 h3
    simp [gating, h1, h2, h3]
  have hget : getOf clusterCollab (afterFirstTick k cr res drift)
      = ((none, 0), fullCluster drift) := by
    rw [afterFirstTick_eq]; rfl
  have hcr : (afterFirstTick k cr res drift).customResource = cr := by
    rw [afterFirstTick_eq]
  have hnf : IsNotFound (getOf clusterCollab (afterFirstTick k cr res drift)).1.1 = false := by
    rw [hget]; rfl
  refine ⟨fun κ => by cases κ <;> rfl, fun κ => ?_, fun κ => ?_, hbits, by rw [hget], hgate, ?_⟩
  · cases κ <;>
      simp [Enter, enterFromInvalidState, retrieveOrCreate, generateNames, withLog, logged,
        MakeCreatingK8sResourcesState, clusterCollab, Collab.traced, Cluster.retrieve,
        Cluster.create, Cluster.present, Cluster.add, emptyCluster]
  · rw [afterFirstTick_eq]; cases κ <;> rfl
  · rcases Nat.eq_zero_or_pos (processOf clusterCollab (afterFirstTick k cr res drift)).1.1
      with hn | hn
    · rw [Update_ready_noDrift k clusterCollab _ hnf hgate hn, hget, hcr]
      simp [hN]
    · have hu : (updateOf clusterCollab (afterFirstTick k cr res drift)).1 = none := by
        rw [afterFirstTick_eq]; rfl
      rw [Update_ready_drift k clusterCollab _ hnf hgate hn, hu, hcr]
      simp [hN]

/-- C10, at a concrete run: `broker1` with three replicas and no drift. -/
theorem converges_in_two_ticks_witness :
    (sampleConsts.WF ∧ 0 < (broker1 3).Size) ∧
    ((∀ κ, (emptyCluster 0).present κ = false) ∧
    (∀ κ, Call.Create κ none ∈
      (Enter sampleConsts clusterCollab.traced sampleConsts.NotCreatedID
        (withLog (MakeCreatingK8sResourcesState sampleConsts (broker1 3) noRequeue
          (emptyCluster 0)))).2.world.2) ∧
    (∀ κ, (afterFirstTick sampleConsts (broker1 3) noRequeue 0).world.present κ = true) ∧
    (∀ κ, 0 < (afterFirstTick sampleConsts (broker1 3) noRequeue 0).stepsComplete
        &&& sampleConsts.flag κ) ∧
    (getOf clusterCollab (afterFirstTick sampleConsts (broker1 3) noRequeue 0)).1.1 = none ∧
    gating sampleConsts (afterFirstTick sampleConsts (broker1 3) noRequeue 0).stepsComplete
      = true ∧
    (Update sampleConsts clusterCollab (afterFirstTick sampleConsts (broker1 3) noRequeue 0)).1
      = (none, sampleConsts.ScalingID)) :=
  ⟨⟨sampleConsts_WF, by decide⟩,
    converges_in_two_ticks sampleConsts sampleConsts_WF (broker1 3) (by decide) noRequeue 0⟩

end ActiveMQArtemis
